import Mathlib

/-!
Verification development for the Eventure booking lifecycle engine.

The definitions below are a shallow embedding of the JavaScript source:

* `addBooking`      — src/backend/controllers/booking-controllers.js, `exports.addBooking`
* `cancelBooking`   — src/backend/controllers/booking-controllers.js, `exports.cancelBooking`
* `downloadTicket`  — src/backend/controllers/booking-controllers.js, `exports.downloadTicket`
* `createTicket`, `verifyTicket`, `generateTicketId`
                    — src/backend/utils/ticketService.js

Embedding conventions:
* JavaScript numbers are modelled as `Int` (counters, millisecond timestamps,
  minor-unit amounts) or `Rat` where the source divides (prices, refund amount
  in dollars, fractional hours); no floating-point rounding is relevant to the
  properties proved here.
* Mongo documents live in a `DB` structure of lists; `findById` is first-match
  lookup by id and `$inc` / field updates are `List.map` over the matching id.
* Optional / possibly-absent JS values are `Option`; JS string truthiness
  (`undefined`, `null`, `""` are falsy) is `optTruthy`.
* External effects are parameters: the Stripe refund call is a function
  `String → Except String RefundReceipt` (payment-intent id to provider
  outcome), fresh Mongo ids and `Date.now()` / `Math.random()` values are
  explicit arguments.
* The QR-code string is `JSON.stringify` of the ticket payload; serialisation
  is injective and `JSON.parse` recovers exactly the payload, so the scannable
  string is modelled by `QRData`: either a well-formed payload or `malformed`
  (a string on which `JSON.parse` throws).
-/

inductive BookingStatus
  | pending
  | confirmed
  | cancelled
deriving DecidableEq, Repr

/-- Event document (src/backend/modals/event-schema, as used by the
controllers): `date` is a millisecond epoch timestamp, `capacity = 0` plays
the role of the falsy "unlimited" sentinel tested by `event.capacity && ...`. -/
structure Event where
  id : String
  title : String
  date : Int
  location : String
  price : Rat
  capacity : Int
  attendees : Int
deriving DecidableEq, Repr

/-- Booking document (src/backend/modals/booking-schema, as used by the
controllers). -/
structure Booking where
  id : String
  name : String
  email : String
  eventId : String
  eventTitle : String
  quantity : Int
  totalPrice : Rat
  status : BookingStatus
  paymentIntentId : Option String
deriving DecidableEq, Repr

/-- The request body of `addBooking` (`req.body`); `totalPrice` is the numeric
value obtained by `parseFloat(req.body.totalPrice)`. -/
structure BookingRequest where
  eventId : String
  name : String
  email : String
  eventTitle : String
  quantity : Int
  totalPrice : Rat
  paymentIntentId : Option String
deriving DecidableEq, Repr

/-- The persistent store: the `events` and `bookings` Mongo collections. -/
structure DB where
  events : List Event
  bookings : List Booking
deriving DecidableEq, Repr

/-- Modelled from the spec: the booking schema file
(src/backend/modals/booking-schema.js) is not in src/, so the status a freshly
created booking receives from `Booking.create` is taken from the repository's
own test (`__tests__/booking.test.js` expects a just-created booking to have
status `confirmed`) and from §4.2 of the spec, which records that the source
treats payment as settled at creation time. -/
def bookingStatusDefault : BookingStatus := .confirmed

/-- JS truthiness of a possibly-absent string: `undefined`/`null`/`""` are
falsy, every other string truthy. -/
def optTruthy : Option String → Bool
  | none => false
  | some s => decide (s ≠ "")

/-- `Event.findById` — first match by id. -/
def findEvent (db : DB) (eventId : String) : Option Event :=
  db.events.find? fun e => e.id == eventId

/-- `Booking.findById` — first match by id. -/
def findBooking (db : DB) (bookingId : String) : Option Booking :=
  db.bookings.find? fun b => b.id == bookingId

/-- `Event.findByIdAndUpdate(eventId, { $inc: { attendees: delta } })`. -/
def incAttendees (db : DB) (eventId : String) (delta : Int) : DB :=
  { db with
    events := db.events.map fun e =>
      if e.id == eventId then { e with attendees := e.attendees + delta } else e }

/-- `booking.status = 'cancelled'; await booking.save()`. -/
def setBookingCancelled (db : DB) (bookingId : String) : DB :=
  { db with
    bookings := db.bookings.map fun b =>
      if b.id == bookingId then { b with status := .cancelled } else b }

/-- The document built by `Booking.create(bookingData)` in `addBooking`:
fields from the request body, `totalPrice` already parsed, a fresh Mongo id,
and the schema's default status. -/
def mkBooking (req : BookingRequest) (newId : String) : Booking :=
  { id := newId
    name := req.name
    email := req.email
    eventId := req.eventId
    eventTitle := req.eventTitle
    quantity := req.quantity
    totalPrice := req.totalPrice
    status := bookingStatusDefault
    paymentIntentId := req.paymentIntentId }

/-- `Booking.create` inserts the new document into the collection. -/
def insertBooking (db : DB) (b : Booking) : DB :=
  { db with bookings := db.bookings ++ [b] }

inductive AddBookingResult
  | eventNotFound
  | soldOut
  | capacityExceeded (availableTickets : Int)
  | created (booking : Booking)
deriving DecidableEq, Repr

/-- Phase 1 of `addBooking` as the source executes it: `await
Event.findById(req.body.eventId)` followed by the two synchronous capacity
checks (booking-controllers.js lines 22 to 44).  `some r` means the request
finishes with response `r`; `none` means the checks passed and the request
proceeds to the create/increment writes. -/
def addBookingCheck (db : DB) (req : BookingRequest) : Option AddBookingResult :=
  match findEvent db req.eventId with
  | none => some .eventNotFound
  | some event =>
    if event.capacity ≠ 0 ∧ event.attendees ≥ event.capacity then
      some .soldOut
    else if event.capacity ≠ 0 ∧ event.attendees + req.quantity > event.capacity then
      some (.capacityExceeded (event.capacity - event.attendees))
    else
      none

/-- `exports.addBooking` (booking-controllers.js lines 14 to 63): run the
checks, then `Booking.create` and `Event.findByIdAndUpdate($inc attendees)`.
The write phases are kept as separate definitions because each `await` in the
source is a separate atomic step of the handler. -/
def addBooking (db : DB) (req : BookingRequest) (newId : String) :
    AddBookingResult × DB :=
  match addBookingCheck db req with
  | some r => (r, db)
  | none =>
    let newBooking := mkBooking req newId
    (.created newBooking,
     incAttendees (insertBooking db newBooking) req.eventId req.quantity)

/-- Sum of quantities of the non-cancelled bookings of one event — the
quantity the spec's capacity invariant bounds by the capacity. -/
def bookedQuantity (db : DB) (eventId : String) : Int :=
  (db.bookings.filter fun b =>
      decide (b.eventId = eventId ∧ b.status ≠ BookingStatus.cancelled)).foldl
    (fun acc b => acc + b.quantity) 0

/-- The object returned by `stripe.refunds.create`: `amount` is in minor
units (cents). -/
structure RefundReceipt where
  id : String
  amount : Int
  status : String
deriving DecidableEq, Repr

/-- The refund object in the 200 response of `cancelBooking`: `amount` is
`refund.amount / 100` (cents to dollars). -/
structure RefundView where
  id : String
  amount : Rat
  status : String
deriving DecidableEq, Repr

inductive CancelResult
  | unauthorized
  | notFound
  | forbidden
  | alreadyCancelled
  | policyViolation (hoursUntilEvent : Int)
  | refundFailed (error : String)
  | serverError
  | cancelledOk (refund : Option RefundView)
deriving DecidableEq, Repr

/-- `Math.round`: round half toward positive infinity. -/
def jsRound (x : Rat) : Int := (x + 1 / 2).floor

/-- The refund block of `cancelBooking` (lines 153 to 178): call Stripe only
when `booking.paymentIntentId` is truthy; `.ok none` means no payment was
made, so no refund is attempted. -/
def refundOutcome (booking : Booking)
    (stripeRefund : String → Except String RefundReceipt) :
    Except String (Option RefundReceipt) :=
  if optTruthy booking.paymentIntentId then
    (stripeRefund (booking.paymentIntentId.getD "")).map some
  else
    .ok none

def refundView : Option RefundReceipt → Option RefundView :=
  Option.map fun r => { id := r.id, amount := (r.amount : Rat) / 100, status := r.status }

/-- `exports.cancelBooking` (booking-controllers.js lines 106 to 214):
email-presence guard, then the ordered preconditions (booking exists,
ownership, not already cancelled, 24-hour policy), then the refund call, and
only on refund success the status write and the attendees decrement.
`serverError` is the catch-all 500 reached when the populated event is
missing and `event.date` throws. -/
def cancelBooking (db : DB) (bookingId : String) (email : Option String)
    (now : Int) (stripeRefund : String → Except String RefundReceipt) :
    CancelResult × DB :=
  if optTruthy email = false then (.unauthorized, db)
  else
    match findBooking db bookingId with
    | none => (.notFound, db)
    | some booking =>
      if booking.email ≠ email.getD "" then (.forbidden, db)
      else if booking.status = .cancelled then (.alreadyCancelled, db)
      else
        match findEvent db booking.eventId with
        | none => (.serverError, db)
        | some event =>
          if ((event.date - now : Int) : Rat) / (1000 * 60 * 60) < 24 then
            (.policyViolation (jsRound (((event.date - now : Int) : Rat) / (1000 * 60 * 60))), db)
          else
            match refundOutcome booking stripeRefund with
            | .error e => (.refundFailed e, db)
            | .ok r =>
              (.cancelledOk (refundView r),
               incAttendees (setBookingCancelled db bookingId) booking.eventId (-booking.quantity))

/-- The ticket payload serialised into the QR code (ticketService.js,
`generateQRCode`); every field is `Option` because a presented payload may
omit any of them. -/
structure TicketPayload where
  ticketId : Option String
  bookingId : Option String
  eventId : Option String
  email : Option String
  quantity : Option Int
  timestamp : Option Int
deriving DecidableEq, Repr

/-- A presented QR string: either `JSON.parse` throws (`malformed`) or it
yields a payload object. -/
inductive QRData
  | malformed
  | payload (p : TicketPayload)
deriving DecidableEq, Repr

/-- `String.prototype.toUpperCase` — character-wise upper-casing. -/
def jsToUpper (s : String) : String := ⟨s.data.map Char.toUpper⟩

/-- `generateTicketId` (ticketService.js lines 28 to 32): `timestamp36` is
`Date.now().toString(36)` and `random` the `Math.random()` fragment;
`bookingId.slice(-6)` is the last six characters. -/
def generateTicketId (timestamp36 random : String) (bookingId : String) : String :=
  jsToUpper ("TKT-" ++ timestamp36 ++ "-" ++ random ++ "-" ++ bookingId.takeRight 6)

structure Ticket where
  ticketId : String
  ticketData : TicketPayload
  qrData : QRData
deriving DecidableEq, Repr

/-- `createTicket` (ticketService.js lines 255 to 276): mint a ticket id,
build the payload, and encode it as the QR string (the PDF rendering carries
no further booking state and is omitted). -/
def createTicket (booking : Booking) (event : Event)
    (timestamp36 random : String) (nowTs : Int) : Ticket :=
  let tid := generateTicketId timestamp36 random booking.id
  let ticketData : TicketPayload :=
    { ticketId := some tid
      bookingId := some booking.id
      eventId := some event.id
      email := some booking.email
      quantity := some booking.quantity
      timestamp := some nowTs }
  { ticketId := tid, ticketData := ticketData, qrData := .payload ticketData }

/-- A booking as produced by the verification controller's finder
`Booking.findById(bookingId).populate('eventId')`
(booking-controllers.js lines 314 to 316): the booking document whose
`eventId` field has been replaced by the referenced event document, or by
null (`none`) when that event no longer exists. -/
structure PopulatedBooking where
  booking : Booking
  event : Option Event
deriving DecidableEq, Repr

/-- The populating finder the controller passes to the ticket service. -/
def findBookingPopulated (db : DB) (bookingId : String) : Option PopulatedBooking :=
  (findBooking db bookingId).map fun b => { booking := b, event := findEvent db b.eventId }

/-- `Document.prototype.toString()` on a populated Mongoose document: it
delegates to the console-inspect rendering of the whole document — a
brace-delimited field listing in which the event's hex id appears only
inside an `ObjectId('...')` wrapper — never the bare id string.  The exact
text varies with Node/Mongoose versions, so the listing is modelled down to
its leading `_id` field; every property proved about it relies only on the
version-independent fact that the rendering properly extends the id (it is
strictly longer than the id, hence never equal to it). -/
def docToString (e : Event) : String :=
  "\x7b _id: new ObjectId('" ++ e.id ++ "'), ... \x7d"

inductive VerifyResult
  | invalidFormat
  | ticketNotFound
  | revoked
  | mismatch
  | verificationFailed
  | verified (pb : PopulatedBooking) (ticketData : TicketPayload)
deriving DecidableEq, Repr

/-- `verifyTicket` (ticketService.js lines 197 to 247) as wired through the
controller (booking-controllers.js lines 302 to 346): parse failure lands in
the catch block (`'Verification failed'`); a parsed payload missing a truthy
`ticketId` or `bookingId` is `'Invalid ticket format'`; then booking lookup
through the populating finder, the cancelled check, and the event-id
comparison, in that order.  Because the finder populates `eventId`, the
compared value `booking.eventId.toString()` is `docToString` of the
populated event document; when the referenced event is missing the call
throws on null and lands in the same catch block.  On success the result
carries the populated booking freshly loaded from the store, not the
payload. -/
def verifyTicket (qrData : QRData) (findB : String → Option PopulatedBooking) :
    VerifyResult :=
  match qrData with
  | .malformed => .verificationFailed
  | .payload ticketData =>
    if optTruthy ticketData.ticketId = false ∨ optTruthy ticketData.bookingId = false then
      .invalidFormat
    else
      match findB (ticketData.bookingId.getD "") with
      | none => .ticketNotFound
      | some pb =>
        if pb.booking.status = .cancelled then .revoked
        else
          match pb.event with
          | none => .verificationFailed
          | some event =>
            if some (docToString event) ≠ ticketData.eventId then .mismatch
            else .verified pb ticketData

inductive DownloadResult
  | unauthorized
  | notFound
  | forbidden
  | invalidStatus (status : BookingStatus)
  | generationFailed
  | pdf (t : Ticket)
deriving DecidableEq, Repr

/-- `exports.downloadTicket` (booking-controllers.js lines 222 to 294):
email-presence guard, booking lookup, ownership check, confirmed-status
check, then `createTicket`; `generationFailed` is the catch around ticket
generation (reached in the model when the populated event is missing). -/
def downloadTicket (db : DB) (bookingId : String) (email : Option String)
    (timestamp36 random : String) (nowTs : Int) : DownloadResult × DB :=
  if optTruthy email = false then (.unauthorized, db)
  else
    match findBooking db bookingId with
    | none => (.notFound, db)
    | some booking =>
      if booking.email ≠ email.getD "" then (.forbidden, db)
      else if booking.status ≠ .confirmed then (.invalidStatus booking.status, db)
      else
        match findEvent db booking.eventId with
        | none => (.generationFailed, db)
        | some event =>
          (.pdf (createTicket booking event timestamp36 random nowTs), db)

/-! ## Helper lemmas about the store operations -/

theorem find?_map_update {α : Type} (p : α → Bool) (f : α → α)
    (hp : ∀ x, p (f x) = p x) :
    ∀ l : List α, (l.map fun x => if p x then f x else x).find? p = (l.find? p).map f := by
  intro l
  induction l with
  | nil => rfl
  | cons a t ih =>
    by_cases h : p a
    · simp only [List.map_cons, if_pos h]
      rw [List.find?_cons_of_pos _ ((hp a).trans h), List.find?_cons_of_pos _ h]
      rfl
    · simp only [List.map_cons, if_neg h]
      rw [List.find?_cons_of_neg _ h, List.find?_cons_of_neg _ h, ih]

theorem findEvent_incAttendees (db : DB) (eventId : String) (delta : Int) :
    findEvent (incAttendees db eventId delta) eventId =
      (findEvent db eventId).map fun e => { e with attendees := e.attendees + delta } := by
  unfold findEvent incAttendees
  exact find?_map_update (fun e => e.id == eventId)
    (fun e => { e with attendees := e.attendees + delta }) (fun x => rfl) db.events

theorem findBooking_setCancelled (db : DB) (bookingId : String) :
    findBooking (setBookingCancelled db bookingId) bookingId =
      (findBooking db bookingId).map fun b => { b with status := .cancelled } := by
  unfold findBooking setBookingCancelled
  exact find?_map_update (fun b => b.id == bookingId)
    (fun b => { b with status := .cancelled }) (fun x => rfl) db.bookings

theorem findEvent_insertBooking (db : DB) (b : Booking) (eventId : String) :
    findEvent (insertBooking db b) eventId = findEvent db eventId := rfl

theorem findBooking_incAttendees (db : DB) (eventId : String) (delta : Int)
    (bookingId : String) :
    findBooking (incAttendees db eventId delta) bookingId = findBooking db bookingId := rfl

theorem findEvent_setCancelled (db : DB) (bookingId eventId : String) :
    findEvent (setBookingCancelled db bookingId) eventId = findEvent db eventId := rfl

theorem findBooking_insertBooking_fresh (db : DB) (b : Booking)
    (h : findBooking db b.id = none) :
    findBooking (insertBooking db b) b.id = some b := by
  unfold findBooking insertBooking at *
  simp only [List.find?_append, h, Option.none_or]
  simp

/-! ## C1 — capacity handling of booking creation -/

/-- C1: for an event with a finite (truthy) capacity, `addBooking` rejects a
saturated event (`attendees >= capacity`) with the sold-out error, rejects
`attendees + quantity > capacity` with the capacity-exceeded error carrying
exactly `capacity - attendees` remaining seats, and otherwise persists the
booking and increments the event's attendees by the quantity; in the
rejection cases the store is unchanged. -/
theorem addBooking_capacity_C1
    (db : DB) (req : BookingRequest) (newId : String) (event : Event)
    (hev : findEvent db req.eventId = some event)
    (hcap : event.capacity ≠ 0) :
    (event.attendees ≥ event.capacity →
        addBooking db req newId = (.soldOut, db)) ∧
    (event.attendees < event.capacity →
        event.attendees + req.quantity > event.capacity →
        addBooking db req newId =
          (.capacityExceeded (event.capacity - event.attendees), db)) ∧
    (event.attendees < event.capacity →
        event.attendees + req.quantity ≤ event.capacity →
        addBooking db req newId =
          (.created (mkBooking req newId),
           incAttendees (insertBooking db (mkBooking req newId)) req.eventId req.quantity) ∧
        findEvent (addBooking db req newId).2 req.eventId =
          some { event with attendees := event.attendees + req.quantity } ∧
        mkBooking req newId ∈ (addBooking db req newId).2.bookings ∧
        (mkBooking req newId).quantity = req.quantity) := by
  refine ⟨?_, ?_, ?_⟩
  · intro h1
    simp only [addBooking, addBookingCheck, hev]
    rw [if_pos ⟨hcap, h1⟩]
  · intro h1 h2
    simp only [addBooking, addBookingCheck, hev]
    rw [if_neg (by omega : ¬(event.capacity ≠ 0 ∧ event.attendees ≥ event.capacity)),
        if_pos ⟨hcap, h2⟩]
  · intro h1 h2
    have hmain : addBooking db req newId =
        (.created (mkBooking req newId),
         incAttendees (insertBooking db (mkBooking req newId)) req.eventId req.quantity) := by
      simp only [addBooking, addBookingCheck, hev]
      rw [if_neg (by omega : ¬(event.capacity ≠ 0 ∧ event.attendees ≥ event.capacity)),
          if_neg (by omega : ¬(event.capacity ≠ 0 ∧ event.attendees + req.quantity > event.capacity))]
    refine ⟨hmain, ?_, ?_, rfl⟩
    · simp only [hmain, findEvent_incAttendees, findEvent_insertBooking, hev]
      rfl
    · simp [hmain, incAttendees, insertBooking]

/-- The capacity-boundary scenario event: capacity 10, attendees 9. -/
def eventC1 : Event :=
  { id := "e1", title := "Launch Night", date := 1767225600000,
    location := "Main Hall", price := 50, capacity := 10, attendees := 9 }

def dbC1 : DB := { events := [eventC1], bookings := [] }

def reqC1 (q : Int) : BookingRequest :=
  { eventId := "e1", name := "Asma", email := "a@x.com",
    eventTitle := "Launch Night", quantity := q, totalPrice := 50,
    paymentIntentId := none }

/-- Witness for C1: the spec's capacity-boundary scenario, capacity 10 and
attendees 9 — quantity 2 is rejected with 1 remaining seat, quantity 1 is
accepted and makes attendees 10, and a further quantity 1 is rejected as
sold out. -/
theorem addBooking_capacity_C1_witness :
    addBooking dbC1 (reqC1 2) "b1" = (.capacityExceeded 1, dbC1) ∧
    (addBooking dbC1 (reqC1 1) "b1").1 = .created (mkBooking (reqC1 1) "b1") ∧
    findEvent (addBooking dbC1 (reqC1 1) "b1").2 "e1" =
      some { eventC1 with attendees := 10 } ∧
    addBooking (addBooking dbC1 (reqC1 1) "b1").2 (reqC1 1) "b2" =
      (.soldOut, (addBooking dbC1 (reqC1 1) "b1").2) := by
  have h2 := (addBooking_capacity_C1 dbC1 (reqC1 2) "b1" eventC1 (by decide)
      (by decide)).2.1 (by decide) (by decide)
  have e1 : eventC1.capacity - eventC1.attendees = (1 : Int) := by decide
  rw [e1] at h2
  have h1full := (addBooking_capacity_C1 dbC1 (reqC1 1) "b1" eventC1 (by decide)
      (by decide)).2.2 (by decide) (by decide)
  have hsold := (addBooking_capacity_C1 (addBooking dbC1 (reqC1 1) "b1").2 (reqC1 1) "b2"
      { eventC1 with attendees := 10 } (by decide) (by decide)).1 (by decide)
  refine ⟨h2, ?_, ?_, hsold⟩
  · rw [h1full.1]
  · have := h1full.2.1
    have e2 : eventC1.attendees + (reqC1 1).quantity = (10 : Int) := by decide
    rw [e2] at this
    exact this

/-! ## C2 — concurrent booking creation is a plain read-check-write race -/

def eventC2 : Event :=
  { id := "e1", title := "Launch Night", date := 1767225600000,
    location := "Main Hall", price := 50, capacity := 10, attendees := 9 }

/-- The booking accounting for the nine seats already claimed. -/
def bookingC2 : Booking :=
  { id := "b0", name := "Basim", email := "b@x.com", eventId := "e1",
    eventTitle := "Launch Night", quantity := 9, totalPrice := 450,
    status := .confirmed, paymentIntentId := none }

def dbC2 : DB := { events := [eventC2], bookings := [bookingC2] }

def reqC2a : BookingRequest :=
  { eventId := "e1", name := "Asma", email := "a@x.com",
    eventTitle := "Launch Night", quantity := 1, totalPrice := 50,
    paymentIntentId := none }

def reqC2b : BookingRequest :=
  { eventId := "e1", name := "Chand", email := "c@x.com",
    eventTitle := "Launch Night", quantity := 1, totalPrice := 50,
    paymentIntentId := none }

/-- The store after the racy interleaving: both handlers run their
read-and-check phase against `dbC2` (both pass, since each `await` yields),
then each performs its `Booking.create` and attendees `$inc`. -/
def dbC2Race : DB :=
  incAttendees
    (insertBooking
      (incAttendees (insertBooking dbC2 (mkBooking reqC2a "b1")) "e1" 1)
      (mkBooking reqC2b "b2"))
    "e1" 1

/-- C2 fails on the code: `addBooking` is a plain read-check-write — the
capacity check (`addBookingCheck`) and the create/increment writes are
separate awaited steps with no serialisation, so with capacity 10 and
attendees 9 two concurrent quantity-1 requests both pass the check against
the same snapshot, both bookings are persisted, attendees reaches 11 and the
non-cancelled booked quantity is 11 > 10, violating the capacity invariant.
Run atomically back-to-back, the same second request would have been
rejected as sold out — the violation comes purely from the interleaving. -/
theorem addBooking_race_C2 :
    addBookingCheck dbC2 reqC2a = none ∧
    addBookingCheck dbC2 reqC2b = none ∧
    addBooking dbC2 reqC2a "b1" =
      (.created (mkBooking reqC2a "b1"),
       incAttendees (insertBooking dbC2 (mkBooking reqC2a "b1")) "e1" 1) ∧
    bookedQuantity dbC2Race "e1" = 11 ∧
    (findEvent dbC2Race "e1").map Event.attendees = some 11 ∧
    eventC2.capacity = 10 ∧
    (addBooking (addBooking dbC2 reqC2a "b1").2 reqC2b "b2").1 = .soldOut := by
  refine ⟨by decide, by decide, by decide, by decide, by decide, by decide, by decide⟩

/-! ## Cancellation: shared branch lemma, C3, C4, C5 -/

/-- A cancellation request that passes all four preconditions reduces to the
refund step: the outcome is decided by `refundOutcome`, with the status write
and attendees decrement applied only on refund success. -/
theorem cancelBooking_refund_branch
    (db : DB) (bid s : String) (now : Int)
    (f : String → Except String RefundReceipt)
    (booking : Booking) (event : Event)
    (hs : s ≠ "")
    (hb : findBooking db bid = some booking)
    (hmail : booking.email = s)
    (hst : booking.status ≠ .cancelled)
    (hev : findEvent db booking.eventId = some event)
    (hpol : ¬ ((event.date - now : Int) : Rat) / (1000 * 60 * 60) < 24) :
    cancelBooking db bid (some s) now f =
      match refundOutcome booking f with
      | .error e => (.refundFailed e, db)
      | .ok r =>
        (.cancelledOk (refundView r),
         incAttendees (setBookingCancelled db bid) booking.eventId (-booking.quantity)) := by
  have hts : optTruthy (some s) = true := by simp [optTruthy, hs]
  simp only [cancelBooking, hts, hb, hev, Option.getD_some]
  rw [if_neg (by simp : ¬ true = false), if_neg (by simp [hmail]), if_neg hst, if_neg hpol]

/-- Converts the 24-hour policy check on fractional hours to milliseconds. -/
theorem hours_ge_24 (d n : Int) (h : 86400000 ≤ d - n) :
    ¬ ((d - n : Int) : Rat) / (1000 * 60 * 60) < 24 := by
  rw [not_lt, le_div_iff₀ (by norm_num : (0 : Rat) < 1000 * 60 * 60)]
  have hc : ((86400000 : Int) : Rat) ≤ ((d - n : Int) : Rat) := by exact_mod_cast h
  push_cast at hc ⊢
  linarith

theorem hours_lt_24 (d n : Int) (h : d - n < 86400000) :
    ((d - n : Int) : Rat) / (1000 * 60 * 60) < 24 := by
  rw [div_lt_iff₀ (by norm_num : (0 : Rat) < 1000 * 60 * 60)]
  have hc : ((d - n : Int) : Rat) < ((86400000 : Int) : Rat) := by exact_mod_cast h
  push_cast at hc ⊢
  linarith

/-- C3: when the booking carries a truthy payment reference and the Stripe
refund call fails, cancellation does not proceed — the store (booking status,
attendees) is returned unchanged and the distinct refund-failed error
surfaces. -/
theorem cancelBooking_refundFail_C3
    (db : DB) (bid s : String) (now : Int)
    (f : String → Except String RefundReceipt)
    (booking : Booking) (event : Event) (pid err : String)
    (hs : s ≠ "")
    (hb : findBooking db bid = some booking)
    (hmail : booking.email = s)
    (hst : booking.status ≠ .cancelled)
    (hev : findEvent db booking.eventId = some event)
    (hpol : ¬ ((event.date - now : Int) : Rat) / (1000 * 60 * 60) < 24)
    (hpid : booking.paymentIntentId = some pid)
    (hpne : pid ≠ "")
    (hf : f pid = .error err) :
    cancelBooking db bid (some s) now f = (.refundFailed err, db) ∧
    findBooking (cancelBooking db bid (some s) now f).2 bid = some booking ∧
    findEvent (cancelBooking db bid (some s) now f).2 booking.eventId = some event := by
  have hro : refundOutcome booking f = .error err := by
    simp [refundOutcome, optTruthy, hpid, hpne, hf, Except.map]
  have hmain := cancelBooking_refund_branch db bid s now f booking event
    hs hb hmail hst hev hpol
  rw [hro] at hmain
  exact ⟨hmain, by rw [hmain]; exact hb, by rw [hmain]; exact hev⟩

def eventC3 : Event :=
  { id := "e1", title := "Launch Night", date := 1767225600000,
    location := "Main Hall", price := 50, capacity := 10, attendees := 2 }

def bookingC3 : Booking :=
  { id := "b1", name := "Asma", email := "a@x.com", eventId := "e1",
    eventTitle := "Launch Night", quantity := 2, totalPrice := 100,
    status := .confirmed, paymentIntentId := some "pi_1" }

def dbC3 : DB := { events := [eventC3], bookings := [bookingC3] }

/-- A provider whose refund call fails. -/
def stripeFailC3 : String → Except String RefundReceipt :=
  fun _ => .error "card network unavailable"

/-- Witness for C3: a paid confirmed booking, cancellation requested 48 hours
before the event, refund call fails — the handler answers refund-failed and
the store is exactly the one before the attempt. -/
theorem cancelBooking_refundFail_C3_witness :
    cancelBooking dbC3 "b1" (some "a@x.com") 1767052800000 stripeFailC3 =
      (.refundFailed "card network unavailable", dbC3) :=
  (cancelBooking_refundFail_C3 dbC3 "b1" "a@x.com" 1767052800000 stripeFailC3
    bookingC3 eventC3 "pi_1" "card network unavailable"
    (by decide) (by decide) (by decide) (by decide) (by decide)
    (hours_ge_24 eventC3.date 1767052800000 (by decide))
    (by decide) (by decide) rfl).1

/-- C4: a cancellation passing all preconditions whose refund step succeeds
(a successful provider call, or no payment reference at all) marks the
booking cancelled, decrements the event's attendees by exactly the booking's
quantity, and answers with the refund receipt view (external id, amount in
dollars, status); consequently creating a booking and then successfully
cancelling it returns the event's attendees to the pre-booking value. -/
theorem cancelBooking_success_C4 :
    (∀ (db : DB) (bid s : String) (now : Int)
        (f : String → Except String RefundReceipt)
        (booking : Booking) (event : Event) (r : Option RefundReceipt),
      s ≠ "" →
      findBooking db bid = some booking →
      booking.email = s →
      booking.status ≠ .cancelled →
      findEvent db booking.eventId = some event →
      ¬ ((event.date - now : Int) : Rat) / (1000 * 60 * 60) < 24 →
      refundOutcome booking f = .ok r →
      cancelBooking db bid (some s) now f =
        (.cancelledOk (refundView r),
         incAttendees (setBookingCancelled db bid) booking.eventId (-booking.quantity)) ∧
      findBooking (cancelBooking db bid (some s) now f).2 bid =
        some { booking with status := .cancelled } ∧
      findEvent (cancelBooking db bid (some s) now f).2 booking.eventId =
        some { event with attendees := event.attendees - booking.quantity } ∧
      (∀ rr, r = some rr →
        refundView r =
          some { id := rr.id, amount := (rr.amount : Rat) / 100, status := rr.status })) ∧
    (∀ (db : DB) (req : BookingRequest) (newId : String) (now : Int)
        (f : String → Except String RefundReceipt)
        (event : Event) (r : Option RefundReceipt),
      findEvent db req.eventId = some event →
      addBookingCheck db req = none →
      findBooking db newId = none →
      req.email ≠ "" →
      ¬ ((event.date - now : Int) : Rat) / (1000 * 60 * 60) < 24 →
      refundOutcome (mkBooking req newId) f = .ok r →
      (cancelBooking (addBooking db req newId).2 newId (some req.email) now f).1 =
        .cancelledOk (refundView r) ∧
      findEvent (cancelBooking (addBooking db req newId).2 newId (some req.email) now f).2
          req.eventId = some event) := by
  constructor
  · intro db bid s now f booking event r hs hb hmail hst hev hpol hro
    have hmain := cancelBooking_refund_branch db bid s now f booking event
      hs hb hmail hst hev hpol
    rw [hro] at hmain
    refine ⟨hmain, ?_, ?_, fun rr hrr => by rw [hrr]; rfl⟩
    · rw [hmain]
      show findBooking (incAttendees (setBookingCancelled db bid) _ _) bid = _
      rw [findBooking_incAttendees, findBooking_setCancelled, hb]
      rfl
    · rw [hmain]
      show findEvent (incAttendees (setBookingCancelled db bid) _ _) booking.eventId = _
      rw [findEvent_incAttendees, findEvent_setCancelled, hev]
      have harith : event.attendees + -booking.quantity =
          event.attendees - booking.quantity := by omega
      simp only [Option.map_some', harith]
  · intro db req newId now f event r hev hchk hfresh hmailne hpol hro
    have hadd : (addBooking db req newId).2 =
        incAttendees (insertBooking db (mkBooking req newId)) req.eventId req.quantity := by
      simp only [addBooking, hchk]
    set b := mkBooking req newId with hbdef
    set db1 := incAttendees (insertBooking db b) req.eventId req.quantity with hdb1
    have hb1 : findBooking db1 newId = some b := by
      rw [hdb1, findBooking_incAttendees]
      exact findBooking_insertBooking_fresh db b hfresh
    have hev1 : findEvent db1 b.eventId =
        some { event with attendees := event.attendees + req.quantity } := by
      show findEvent db1 req.eventId = _
      rw [hdb1, findEvent_incAttendees, findEvent_insertBooking, hev]
      rfl
    have hmain := cancelBooking_refund_branch db1 newId req.email now f b
      { event with attendees := event.attendees + req.quantity }
      hmailne hb1 rfl (by simp [hbdef, mkBooking, bookingStatusDefault]) hev1 hpol
    rw [hro] at hmain
    rw [hadd]
    refine ⟨by rw [hmain], ?_⟩
    rw [hmain]
    show findEvent (incAttendees (setBookingCancelled db1 newId) b.eventId (-b.quantity))
        req.eventId = some event
    have hbev : b.eventId = req.eventId := rfl
    rw [hbev, findEvent_incAttendees, findEvent_setCancelled, hdb1, findEvent_incAttendees,
        findEvent_insertBooking, hev]
    have harith : event.attendees + req.quantity + -b.quantity = event.attendees := by
      rw [hbdef]
      show event.attendees + req.quantity + -req.quantity = event.attendees
      omega
    simp only [Option.map_some', harith]

/-- A provider whose refund call succeeds with a 10000-cent receipt. -/
def stripeOkC4 : String → Except String RefundReceipt :=
  fun _ => .ok { id := "re_1", amount := 10000, status := "succeeded" }

def eventC4 : Event :=
  { id := "e2", title := "Gala", date := 1767225600000, location := "Hall B",
    price := 40, capacity := 50, attendees := 7 }

def dbC4 : DB := { events := [eventC4], bookings := [] }

def reqC4 : BookingRequest :=
  { eventId := "e2", name := "Dara", email := "d@x.com", eventTitle := "Gala",
    quantity := 3, totalPrice := 120, paymentIntentId := some "pi_7" }

/-- Witness for C4: cancelling the paid booking `b1` 48 hours ahead with a
succeeding refund marks it cancelled, drops the event attendees from 2 to 0
and returns the receipt (id `re_1`, 10000 cents shown as 100 dollars,
status `succeeded`); and a fresh create-then-cancel round trip on another
event returns its attendees to the pre-booking value 7. -/
theorem cancelBooking_success_C4_witness :
    (cancelBooking dbC3 "b1" (some "a@x.com") 1767052800000 stripeOkC4).1 =
      .cancelledOk (some { id := "re_1", amount := 100, status := "succeeded" }) ∧
    findBooking (cancelBooking dbC3 "b1" (some "a@x.com") 1767052800000 stripeOkC4).2 "b1" =
      some { bookingC3 with status := .cancelled } ∧
    findEvent (cancelBooking dbC3 "b1" (some "a@x.com") 1767052800000 stripeOkC4).2 "e1" =
      some { eventC3 with attendees := 0 } ∧
    findEvent (cancelBooking (addBooking dbC4 reqC4 "b9").2 "b9" (some "d@x.com")
        1767052800000 stripeOkC4).2 "e2" = some eventC4 := by
  have hA := cancelBooking_success_C4.1 dbC3 "b1" "a@x.com" 1767052800000 stripeOkC4
    bookingC3 eventC3 (some { id := "re_1", amount := 10000, status := "succeeded" })
    (by decide) (by decide) (by decide) (by decide) (by decide)
    (hours_ge_24 eventC3.date 1767052800000 (by decide)) rfl
  have hB := cancelBooking_success_C4.2 dbC4 reqC4 "b9" 1767052800000 stripeOkC4
    eventC4 (some { id := "re_1", amount := 10000, status := "succeeded" })
    (by decide) (by decide) (by decide) (by decide)
    (hours_ge_24 eventC4.date 1767052800000 (by decide)) rfl
  refine ⟨?_, hA.2.1, ?_, hB.2⟩
  · have hview : refundView (some { id := "re_1", amount := 10000, status := "succeeded" }) =
        some { id := "re_1", amount := 100, status := "succeeded" } := by
      simp only [refundView, Option.map_some']
      norm_num
    rw [hA.1, hview]
  · have harith : eventC3.attendees - bookingC3.quantity = (0 : Int) := by decide
    have h := hA.2.2.1
    rw [harith] at h
    exact h

/-- C5: with a requester email supplied, `cancelBooking` checks its
preconditions in order and short-circuits on the first failure — missing
booking is NotFound; an email differing from the booking's owning email is
Forbidden (regardless of status, policy or provider); an already cancelled
booking is AlreadyCancelled; less than 24 hours to the event is a policy
violation reporting the (rounded) hours remaining; and a request passing all
four proceeds to the refund step, finishing as refund-failed or as a
completed cancellation.  Every rejected request leaves the store unchanged. -/
theorem cancelBooking_preconditions_C5 :
    (∀ (db : DB) (bid s : String) (now : Int)
        (f : String → Except String RefundReceipt),
      s ≠ "" → findBooking db bid = none →
      cancelBooking db bid (some s) now f = (.notFound, db)) ∧
    (∀ (db : DB) (bid s : String) (now : Int)
        (f : String → Except String RefundReceipt) (booking : Booking),
      s ≠ "" → findBooking db bid = some booking → booking.email ≠ s →
      cancelBooking db bid (some s) now f = (.forbidden, db)) ∧
    (∀ (db : DB) (bid s : String) (now : Int)
        (f : String → Except String RefundReceipt) (booking : Booking),
      s ≠ "" → findBooking db bid = some booking → booking.email = s →
      booking.status = .cancelled →
      cancelBooking db bid (some s) now f = (.alreadyCancelled, db)) ∧
    (∀ (db : DB) (bid s : String) (now : Int)
        (f : String → Except String RefundReceipt) (booking : Booking) (event : Event),
      s ≠ "" → findBooking db bid = some booking → booking.email = s →
      booking.status ≠ .cancelled → findEvent db booking.eventId = some event →
      ((event.date - now : Int) : Rat) / (1000 * 60 * 60) < 24 →
      cancelBooking db bid (some s) now f =
        (.policyViolation (jsRound (((event.date - now : Int) : Rat) / (1000 * 60 * 60))), db)) ∧
    (∀ (db : DB) (bid s : String) (now : Int)
        (f : String → Except String RefundReceipt) (booking : Booking) (event : Event),
      s ≠ "" → findBooking db bid = some booking → booking.email = s →
      booking.status ≠ .cancelled → findEvent db booking.eventId = some event →
      ¬ ((event.date - now : Int) : Rat) / (1000 * 60 * 60) < 24 →
      (∃ e, cancelBooking db bid (some s) now f = (.refundFailed e, db)) ∨
      (∃ rv db2, cancelBooking db bid (some s) now f = (.cancelledOk rv, db2))) := by
  refine ⟨?_, ?_, ?_, ?_, ?_⟩
  · intro db bid s now f hs hb
    have hts : optTruthy (some s) = true := by simp [optTruthy, hs]
    simp only [cancelBooking, hts, hb]
    rw [if_neg (by simp : ¬ true = false)]
  · intro db bid s now f booking hs hb hne
    have hts : optTruthy (some s) = true := by simp [optTruthy, hs]
    simp only [cancelBooking, hts, hb, Option.getD_some]
    rw [if_neg (by simp : ¬ true = false), if_pos hne]
  · intro db bid s now f booking hs hb hmail hst
    have hts : optTruthy (some s) = true := by simp [optTruthy, hs]
    simp only [cancelBooking, hts, hb, Option.getD_some]
    rw [if_neg (by simp : ¬ true = false), if_neg (by simp [hmail]), if_pos hst]
  · intro db bid s now f booking event hs hb hmail hst hev hpol
    have hts : optTruthy (some s) = true := by simp [optTruthy, hs]
    simp only [cancelBooking, hts, hb, hev, Option.getD_some]
    rw [if_neg (by simp : ¬ true = false), if_neg (by simp [hmail]), if_neg hst, if_pos hpol]
  · intro db bid s now f booking event hs hb hmail hst hev hpol
    have hmain := cancelBooking_refund_branch db bid s now f booking event
      hs hb hmail hst hev hpol
    cases hro : refundOutcome booking f with
    | error e =>
      rw [hro] at hmain
      exact Or.inl ⟨e, hmain⟩
    | ok r =>
      rw [hro] at hmain
      exact Or.inr ⟨refundView r, _, hmain⟩

theorem jsRound_23h : jsRound (((82800000 : Int) : Rat) / (1000 * 60 * 60)) = 23 := by
  unfold jsRound
  have h : ((82800000 : Int) : Rat) / (1000 * 60 * 60) + 1 / 2 = 47 / 2 := by
    push_cast
    norm_num
  rw [h, Rat.floor_def']
  norm_num

def eventC5 : Event :=
  { id := "e1", title := "Launch Night", date := 1767225600000,
    location := "Main Hall", price := 50, capacity := 10, attendees := 3 }

def bookingC5 : Booking :=
  { id := "b1", name := "Asma", email := "a@x.com", eventId := "e1",
    eventTitle := "Launch Night", quantity := 1, totalPrice := 50,
    status := .confirmed, paymentIntentId := none }

def bookingC5c : Booking :=
  { id := "b2", name := "Asma", email := "a@x.com", eventId := "e1",
    eventTitle := "Launch Night", quantity := 2, totalPrice := 100,
    status := .cancelled, paymentIntentId := none }

def dbC5 : DB := { events := [eventC5], bookings := [bookingC5, bookingC5c] }

/-- Witness for C5: against the same store, an unknown booking id is
NotFound, the spec's ownership scenario (owner `a@x.com`, requester
`b@x.com`) is Forbidden, the cancelled booking `b2` is AlreadyCancelled, a
request 23 hours ahead is rejected reporting 23 hours remaining, and the
well-formed request 48 hours ahead proceeds to the refund step. -/
theorem cancelBooking_preconditions_C5_witness :
    cancelBooking dbC5 "nope" (some "a@x.com") 1767052800000 stripeOkC4 =
      (.notFound, dbC5) ∧
    cancelBooking dbC5 "b1" (some "b@x.com") 1767052800000 stripeOkC4 =
      (.forbidden, dbC5) ∧
    cancelBooking dbC5 "b2" (some "a@x.com") 1767052800000 stripeOkC4 =
      (.alreadyCancelled, dbC5) ∧
    cancelBooking dbC5 "b1" (some "a@x.com") 1767142800000 stripeOkC4 =
      (.policyViolation 23, dbC5) ∧
    ((∃ e, cancelBooking dbC5 "b1" (some "a@x.com") 1767052800000 stripeOkC4 =
        (.refundFailed e, dbC5)) ∨
     (∃ rv db2, cancelBooking dbC5 "b1" (some "a@x.com") 1767052800000 stripeOkC4 =
        (.cancelledOk rv, db2))) := by
  refine ⟨?_, ?_, ?_, ?_, ?_⟩
  · exact cancelBooking_preconditions_C5.1 dbC5 "nope" "a@x.com" 1767052800000
      stripeOkC4 (by decide) (by decide)
  · exact cancelBooking_preconditions_C5.2.1 dbC5 "b1" "b@x.com" 1767052800000
      stripeOkC4 bookingC5 (by decide) (by decide) (by decide)
  · exact cancelBooking_preconditions_C5.2.2.1 dbC5 "b2" "a@x.com" 1767052800000
      stripeOkC4 bookingC5c (by decide) (by decide) (by decide) (by decide)
  · have h := cancelBooking_preconditions_C5.2.2.2.1 dbC5 "b1" "a@x.com" 1767142800000
      stripeOkC4 bookingC5 eventC5 (by decide) (by decide) (by decide) (by decide)
      (by decide)
      (hours_lt_24 eventC5.date 1767142800000 (by decide))
    have h0 : eventC5.date - 1767142800000 = (82800000 : Int) := by decide
    rw [h0, jsRound_23h] at h
    exact h
  · exact cancelBooking_preconditions_C5.2.2.2.2 dbC5 "b1" "a@x.com" 1767052800000
      stripeOkC4 bookingC5 eventC5 (by decide) (by decide) (by decide) (by decide)
      (by decide) (hours_ge_24 eventC5.date 1767052800000 (by decide))

/-! ## C6 — ticket verification decision order -/

/-- The inspect rendering of a populated event document is strictly longer
than the event's id, so it never equals the bare id (or any string at most
as long as the id). -/
theorem docToString_ne (e : Event) (s : String) (h : s.length ≤ e.id.length) :
    docToString e ≠ s := by
  intro heq
  have hlen := congrArg String.length heq
  simp only [docToString, String.length_append] at hlen
  have hpos : 0 < ("\x7b _id: new ObjectId('" : String).length := by decide
  omega

def payloadC6NoBid : TicketPayload :=
  { ticketId := some "TKT-1", bookingId := none, eventId := some "e1",
    email := some "a@x.com", quantity := some 1, timestamp := some 0 }

def payloadC6 (bid eid : String) : TicketPayload :=
  { ticketId := some "TKT-1", bookingId := some bid, eventId := some eid,
    email := some "a@x.com", quantity := some 1, timestamp := some 0 }

/-- A booking whose referenced event has been deleted, so the controller's
populate yields null for its `eventId`. -/
def bookingC6orphan : Booking :=
  { id := "b3", name := "Omar", email := "o@x.com", eventId := "eGone",
    eventTitle := "Deleted Event", quantity := 1, totalPrice := 20,
    status := .confirmed, paymentIntentId := none }

def dbC6 : DB :=
  { events := [eventC5], bookings := [bookingC5, bookingC5c, bookingC6orphan] }

/-- C6 counterexample: the claim fails on the code at two concrete inputs.
A payload on which `JSON.parse` throws does not fail with the invalid-format
error — the catch block answers the generic verification failure.  And a
well-formed payload embedding the booking's actual current event id (`e1`,
which the claim says must verify successfully and must not be a Mismatch) is
rejected with Mismatch, because the controller's finder populates `eventId`
and the compared `booking.eventId.toString()` is the document's inspect
rendering, never the bare hex id. -/
theorem verifyTicket_malformed_C6_cex :
    verifyTicket .malformed (findBookingPopulated dbC5) = .verificationFailed ∧
    VerifyResult.verificationFailed ≠ .invalidFormat ∧
    bookingC5.eventId = "e1" ∧ eventC5.id = "e1" ∧
    (payloadC6 "b1" "e1").eventId = some "e1" ∧
    verifyTicket (.payload (payloadC6 "b1" "e1")) (findBookingPopulated dbC5) =
      .mismatch := by
  refine ⟨rfl, by decide, by decide, by decide, rfl, by decide⟩

/-- C6 (amended): a payload that fails to parse yields the generic
verification-failure error; a payload that parses but lacks a truthy ticket
id or booking id fails with InvalidFormat; a booking id matching no booking
fails with NotFound; a booking in status cancelled fails with Revoked.  Past
these checks the code compares the string rendering of the populated event
document (`toString()` of the Mongoose document — an inspect listing that
properly extends and never equals a bare event id) against the payload's
embedded event id: when the populated event is missing the call throws into
the generic verification failure; any payload embedding an actual event id —
including the booking's correct current event id — fails with Mismatch; and
the success branch, which returns the live populated booking record, is
taken only by a payload embedding that full rendering, so it is unreachable
for genuine payloads. -/
theorem verifyTicket_decision_C6 :
    (∀ findB, verifyTicket .malformed findB = .verificationFailed) ∧
    (∀ (p : TicketPayload) findB,
      optTruthy p.ticketId = false ∨ optTruthy p.bookingId = false →
      verifyTicket (.payload p) findB = .invalidFormat) ∧
    (∀ (p : TicketPayload) findB (bid : String),
      optTruthy p.ticketId = true → p.bookingId = some bid → bid ≠ "" →
      findB bid = none →
      verifyTicket (.payload p) findB = .ticketNotFound) ∧
    (∀ (p : TicketPayload) findB (bid : String) (pb : PopulatedBooking),
      optTruthy p.ticketId = true → p.bookingId = some bid → bid ≠ "" →
      findB bid = some pb → pb.booking.status = .cancelled →
      verifyTicket (.payload p) findB = .revoked) ∧
    (∀ (p : TicketPayload) findB (bid : String) (pb : PopulatedBooking),
      optTruthy p.ticketId = true → p.bookingId = some bid → bid ≠ "" →
      findB bid = some pb → pb.booking.status ≠ .cancelled →
      pb.event = none →
      verifyTicket (.payload p) findB = .verificationFailed) ∧
    (∀ (p : TicketPayload) findB (bid : String) (pb : PopulatedBooking) (event : Event),
      optTruthy p.ticketId = true → p.bookingId = some bid → bid ≠ "" →
      findB bid = some pb → pb.booking.status ≠ .cancelled →
      pb.event = some event → some (docToString event) ≠ p.eventId →
      verifyTicket (.payload p) findB = .mismatch) ∧
    (∀ (p : TicketPayload) findB (bid : String) (pb : PopulatedBooking)
        (event : Event) (s : String),
      optTruthy p.ticketId = true → p.bookingId = some bid → bid ≠ "" →
      findB bid = some pb → pb.booking.status ≠ .cancelled →
      pb.event = some event → p.eventId = some s → s.length ≤ event.id.length →
      verifyTicket (.payload p) findB = .mismatch) ∧
    (∀ (p : TicketPayload) findB (bid : String) (pb : PopulatedBooking) (event : Event),
      optTruthy p.ticketId = true → p.bookingId = some bid → bid ≠ "" →
      findB bid = some pb → pb.booking.status ≠ .cancelled →
      pb.event = some event → p.eventId = some (docToString event) →
      verifyTicket (.payload p) findB = .verified pb p) := by
  have hmis : ∀ (p : TicketPayload) (findB : String → Option PopulatedBooking)
      (bid : String) (pb : PopulatedBooking) (event : Event),
      optTruthy p.ticketId = true → p.bookingId = some bid → bid ≠ "" →
      findB bid = some pb → pb.booking.status ≠ .cancelled →
      pb.event = some event → some (docToString event) ≠ p.eventId →
      verifyTicket (.payload p) findB = .mismatch := by
    intro p findB bid pb event ht hbid hbne hfb hst hev hmm
    have htb : optTruthy (some bid) = true := by simp [optTruthy, hbne]
    simp only [verifyTicket, hbid, Option.getD_some, hfb, hev]
    rw [if_neg (by simp [ht, htb]), if_neg hst, if_pos hmm]
  refine ⟨fun findB => rfl, ?_, ?_, ?_, ?_, hmis, ?_, ?_⟩
  · intro p findB h
    simp only [verifyTicket]
    rw [if_pos h]
  · intro p findB bid ht hbid hbne hfb
    have htb : optTruthy (some bid) = true := by simp [optTruthy, hbne]
    simp only [verifyTicket, hbid, Option.getD_some, hfb]
    rw [if_neg (by simp [ht, htb])]
  · intro p findB bid pb ht hbid hbne hfb hst
    have htb : optTruthy (some bid) = true := by simp [optTruthy, hbne]
    simp only [verifyTicket, hbid, Option.getD_some, hfb]
    rw [if_neg (by simp [ht, htb]), if_pos hst]
  · intro p findB bid pb ht hbid hbne hfb hst hev
    have htb : optTruthy (some bid) = true := by simp [optTruthy, hbne]
    simp only [verifyTicket, hbid, Option.getD_some, hfb, hev]
    rw [if_neg (by simp [ht, htb]), if_neg hst]
  · intro p findB bid pb event s ht hbid hbne hfb hst hev hp hle
    exact hmis p findB bid pb event ht hbid hbne hfb hst hev
      (by rw [hp]; exact fun heq => docToString_ne event s hle (Option.some.inj heq))
  · intro p findB bid pb event ht hbid hbne hfb hst hev hp
    have htb : optTruthy (some bid) = true := by simp [optTruthy, hbne]
    simp only [verifyTicket, hbid, Option.getD_some, hfb, hev]
    rw [if_neg (by simp [ht, htb]), if_neg hst, if_neg (by simp [hp])]

/-- Witness for the amended C6, against the populated finder over `dbC6`
(confirmed booking `b1` on event `e1`, cancelled booking `b2`, orphan
booking `b3`): a payload without booking id is invalid-format, an unknown
booking id is not-found, the cancelled booking is revoked, the orphan
booking's payload lands in the generic verification failure, the payload
embedding `b1`'s correct current event id `e1` is a Mismatch, and only a
payload embedding the populated document's full rendering reaches the
success branch. -/
theorem verifyTicket_decision_C6_witness :
    verifyTicket (.payload payloadC6NoBid) (findBookingPopulated dbC6) = .invalidFormat ∧
    verifyTicket (.payload (payloadC6 "zz" "e1")) (findBookingPopulated dbC6) =
      .ticketNotFound ∧
    verifyTicket (.payload (payloadC6 "b2" "e1")) (findBookingPopulated dbC6) = .revoked ∧
    verifyTicket (.payload (payloadC6 "b3" "eGone")) (findBookingPopulated dbC6) =
      .verificationFailed ∧
    verifyTicket (.payload (payloadC6 "b1" "e1")) (findBookingPopulated dbC6) = .mismatch ∧
    verifyTicket (.payload (payloadC6 "b1" (docToString eventC5)))
        (findBookingPopulated dbC6) =
      .verified { booking := bookingC5, event := some eventC5 }
        (payloadC6 "b1" (docToString eventC5)) := by
  refine ⟨?_, ?_, ?_, ?_, ?_, ?_⟩
  · exact verifyTicket_decision_C6.2.1 payloadC6NoBid (findBookingPopulated dbC6)
      (Or.inr (by decide))
  · exact verifyTicket_decision_C6.2.2.1 (payloadC6 "zz" "e1") (findBookingPopulated dbC6)
      "zz" (by decide) (by decide) (by decide) (by decide)
  · exact verifyTicket_decision_C6.2.2.2.1 (payloadC6 "b2" "e1") (findBookingPopulated dbC6)
      "b2" { booking := bookingC5c, event := some eventC5 }
      (by decide) (by decide) (by decide) (by decide) (by decide)
  · exact verifyTicket_decision_C6.2.2.2.2.1 (payloadC6 "b3" "eGone")
      (findBookingPopulated dbC6) "b3" { booking := bookingC6orphan, event := none }
      (by decide) (by decide) (by decide) (by decide) (by decide) (by decide)
  · exact verifyTicket_decision_C6.2.2.2.2.2.2.1 (payloadC6 "b1" "e1")
      (findBookingPopulated dbC6) "b1" { booking := bookingC5, event := some eventC5 }
      eventC5 "e1" (by decide) (by decide) (by decide) (by decide) (by decide)
      (by decide) (by decide) (by decide)
  · exact verifyTicket_decision_C6.2.2.2.2.2.2.2 (payloadC6 "b1" (docToString eventC5))
      (findBookingPopulated dbC6) "b1" { booking := bookingC5, event := some eventC5 }
      eventC5 (by decide) (by decide) (by decide) (by decide) (by decide)
      (by decide) (by decide)

/-! ## C7 — issuance does not round-trip through verification -/

/-- A minted ticket id always starts with `TKT-`, so it is never the empty
(falsy) string. -/
theorem generateTicketId_ne_empty (ts rand bid : String) :
    generateTicketId ts rand bid ≠ "" := by
  intro h
  have hd : (generateTicketId ts rand bid).data = "".data := congrArg String.data h
  simp only [generateTicketId, jsToUpper, String.data_append] at hd
  simp at hd

/-- C7 fails on the code (code bug): the scannable payload minted by
`createTicket` from the confirmed booking `b1` embeds the booking's actual
current event id, yet presented unchanged against the same store it is
rejected with Mismatch (valid=false), not verified — the controller's finder
populates `eventId`, so the compared `booking.eventId.toString()` is the
document's inspect rendering, which never equals the payload's hex id.  The
second half of the claim does hold: after `b1` is cancelled through
`cancelBooking` (successful refund), the identical payload is Revoked,
because the cancelled check precedes the event-id comparison. -/
theorem ticket_roundtrip_mismatch_C7 :
    (createTicket bookingC3 eventC3 "m1x" "4k2j9" 1767000000000).ticketData.eventId =
      some bookingC3.eventId ∧
    docToString eventC3 ≠ eventC3.id ∧
    verifyTicket (createTicket bookingC3 eventC3 "m1x" "4k2j9" 1767000000000).qrData
      (findBookingPopulated dbC3) = .mismatch ∧
    (∀ pb p, VerifyResult.mismatch ≠ .verified pb p) ∧
    (cancelBooking dbC3 "b1" (some "a@x.com") 1767052800000 stripeOkC4).2 =
      incAttendees (setBookingCancelled dbC3 "b1") bookingC3.eventId
        (-bookingC3.quantity) ∧
    verifyTicket (createTicket bookingC3 eventC3 "m1x" "4k2j9" 1767000000000).qrData
      (findBookingPopulated
        (incAttendees (setBookingCancelled dbC3 "b1") bookingC3.eventId
          (-bookingC3.quantity))) = .revoked := by
  have hmain := cancelBooking_refund_branch dbC3 "b1" "a@x.com" 1767052800000 stripeOkC4
    bookingC3 eventC3 (by decide) (by decide) (by decide) (by decide) (by decide)
    (hours_ge_24 eventC3.date 1767052800000 (by decide))
  have hro : refundOutcome bookingC3 stripeOkC4 =
      .ok (some { id := "re_1", amount := 10000, status := "succeeded" }) := rfl
  rw [hro] at hmain
  exact ⟨rfl, by decide, by decide, fun pb p h => VerifyResult.noConfusion h,
    congrArg Prod.snd hmain, by decide⟩

/-! ## C8 — ticket issuance is pure and gated on confirmed + ownership -/

theorem findBooking_id (db : DB) (bid : String) (booking : Booking)
    (h : findBooking db bid = some booking) : booking.id = bid := by
  have hp := List.find?_some h
  simpa using hp

/-- Inversion: a PDF answer from `downloadTicket` pins down every guard. -/
theorem downloadTicket_pdf_inv (db : DB) (bid : String) (email : Option String)
    (ts rand : String) (nowTs : Int) (t : Ticket)
    (h : (downloadTicket db bid email ts rand nowTs).1 = .pdf t) :
    ∃ booking event, findBooking db bid = some booking ∧
      booking.email = email.getD "" ∧ booking.status = .confirmed ∧
      findEvent db booking.eventId = some event ∧
      t = createTicket booking event ts rand nowTs ∧
      optTruthy email = true := by
  by_cases hmail : optTruthy email = false
  · unfold downloadTicket at h
    rw [if_pos hmail] at h
    simp at h
  · cases hfb : findBooking db bid with
    | none =>
      simp only [downloadTicket, hfb] at h
      rw [if_neg hmail] at h
      simp at h
    | some booking =>
      simp only [downloadTicket, hfb] at h
      rw [if_neg hmail] at h
      by_cases hemail : booking.email ≠ email.getD ""
      · rw [if_pos hemail] at h
        simp at h
      · rw [if_neg hemail] at h
        by_cases hst2 : booking.status ≠ .confirmed
        · rw [if_pos hst2] at h
          simp at h
        · rw [if_neg hst2] at h
          cases hfe : findEvent db booking.eventId with
          | none =>
            rw [hfe] at h
            simp at h
          | some ev =>
            rw [hfe] at h
            refine ⟨booking, ev, rfl, not_not.mp hemail, not_not.mp hst2, hfe, ?_, ?_⟩
            · simpa using h.symm
            · simpa using hmail

/-- Forward evaluation: with all guards satisfied, `downloadTicket` answers
the freshly created ticket and leaves the store untouched. -/
theorem downloadTicket_pdf_eval (db : DB) (bid : String) (email : Option String)
    (ts rand : String) (nowTs : Int) (booking : Booking) (event : Event)
    (hmail : optTruthy email = true)
    (hfb : findBooking db bid = some booking)
    (hemail : booking.email = email.getD "")
    (hst : booking.status = .confirmed)
    (hev : findEvent db booking.eventId = some event) :
    downloadTicket db bid email ts rand nowTs =
      (.pdf (createTicket booking event ts rand nowTs), db) := by
  simp only [downloadTicket, hfb, hev]
  rw [if_neg (by simp [hmail]), if_neg (by simp [hemail]), if_neg (by simp [hst])]

/-- C8: `downloadTicket` never mutates the store (the booking's and event's
fields are identical before and after any issuance call); it answers a ticket
only when the booking exists, its status is confirmed, and the requester's
email equals the booking's owning email; and issuance is repeatable — after a
successful call the same request succeeds again, minting a ticket id derived
from the fresh timestamp and randomness of the second call. -/
theorem downloadTicket_frame_C8 :
    (∀ (db : DB) (bid : String) (email : Option String) (ts rand : String) (nowTs : Int),
      (downloadTicket db bid email ts rand nowTs).2 = db) ∧
    (∀ (db : DB) (bid s ts rand : String) (nowTs : Int) (t : Ticket),
      (downloadTicket db bid (some s) ts rand nowTs).1 = .pdf t →
      ∃ booking, findBooking db bid = some booking ∧
        booking.status = .confirmed ∧ booking.email = s) ∧
    (∀ (db : DB) (bid : String) (email : Option String) (ts1 rand1 : String) (n1 : Int)
        (ts2 rand2 : String) (n2 : Int) (t1 : Ticket),
      (downloadTicket db bid email ts1 rand1 n1).1 = .pdf t1 →
      ∃ t2, (downloadTicket (downloadTicket db bid email ts1 rand1 n1).2 bid email
          ts2 rand2 n2).1 = .pdf t2 ∧
        t2.ticketId = generateTicketId ts2 rand2 bid) := by
  have hframe : ∀ (db : DB) (bid : String) (email : Option String)
      (ts rand : String) (nowTs : Int),
      (downloadTicket db bid email ts rand nowTs).2 = db := by
    intro db bid email ts rand nowTs
    unfold downloadTicket
    repeat' split
    all_goals rfl
  refine ⟨hframe, ?_, ?_⟩
  · intro db bid s ts rand nowTs t h
    obtain ⟨booking, ev, hfb, hemail, hst, hfe, ht, hm⟩ :=
      downloadTicket_pdf_inv db bid (some s) ts rand nowTs t h
    exact ⟨booking, hfb, hst, by simpa using hemail⟩
  · intro db bid email ts1 rand1 n1 ts2 rand2 n2 t1 h
    obtain ⟨booking, ev, hfb, hemail, hst, hfe, ht, hm⟩ :=
      downloadTicket_pdf_inv db bid email ts1 rand1 n1 t1 h
    refine ⟨createTicket booking ev ts2 rand2 n2, ?_, ?_⟩
    · rw [hframe db bid email ts1 rand1 n1,
          downloadTicket_pdf_eval db bid email ts2 rand2 n2 booking ev hm hfb hemail hst hfe]
    · show generateTicketId ts2 rand2 booking.id = generateTicketId ts2 rand2 bid
      rw [findBooking_id db bid booking hfb]

/-- Witness for C8: issuing a ticket for the confirmed booking `b1` leaves
the store untouched, pins the guard facts, and a repeated issuance succeeds
minting an id from the second call's fresh timestamp and randomness — which
differs from the first call's id. -/
theorem downloadTicket_frame_C8_witness :
    (downloadTicket dbC3 "b1" (some "a@x.com") "m1" "r1" 100).2 = dbC3 ∧
    (∃ booking, findBooking dbC3 "b1" = some booking ∧
        booking.status = .confirmed ∧ booking.email = "a@x.com") ∧
    (∃ t2, (downloadTicket (downloadTicket dbC3 "b1" (some "a@x.com") "m1" "r1" 100).2
        "b1" (some "a@x.com") "m2" "r2" 200).1 = .pdf t2 ∧
      t2.ticketId = generateTicketId "m2" "r2" "b1") ∧
    generateTicketId "m1" "r1" "b1" ≠ generateTicketId "m2" "r2" "b1" := by
  refine ⟨downloadTicket_frame_C8.1 dbC3 "b1" (some "a@x.com") "m1" "r1" 100,
    downloadTicket_frame_C8.2.1 dbC3 "b1" "a@x.com" "m1" "r1" 100
      (createTicket bookingC3 eventC3 "m1" "r1" 100) rfl,
    downloadTicket_frame_C8.2.2 dbC3 "b1" (some "a@x.com") "m1" "r1" 100 "m2" "r2" 200
      (createTicket bookingC3 eventC3 "m1" "r1" 100) rfl,
    by decide⟩

/-! ## C9 — client-supplied price is persisted untouched -/

theorem addBookingCheck_not_created (db : DB) (req : BookingRequest) (b : Booking) :
    addBookingCheck db req ≠ some (.created b) := by
  unfold addBookingCheck
  cases findEvent db req.eventId with
  | none => simp
  | some event =>
    split
    · simp
    · split
      · simp
      · simp

def eventC9 : Event :=
  { id := "e1", title := "Launch Night", date := 1767225600000,
    location := "Main Hall", price := 50, capacity := 10, attendees := 0 }

def dbC9 : DB := { events := [eventC9], bookings := [] }

/-- A request whose client-supplied total (1) is not the server-held price
times quantity (50 x 2 = 100). -/
def reqC9 : BookingRequest :=
  { eventId := "e1", name := "Asma", email := "a@x.com",
    eventTitle := "Launch Night", quantity := 2, totalPrice := 1,
    paymentIntentId := none }

/-- C9: every booking persisted by `addBooking` stores the parsed
client-supplied `totalPrice` verbatim, and in particular there is an input
whose supplied total differs from the server-held event price times quantity
yet is stored unchanged — the server never recomputes the price. -/
theorem addBooking_clientPrice_C9 :
    (∀ (db : DB) (req : BookingRequest) (newId : String) (b : Booking) (db2 : DB),
      addBooking db req newId = (.created b, db2) → b.totalPrice = req.totalPrice) ∧
    (∃ (db : DB) (req : BookingRequest) (newId : String) (event : Event)
        (b : Booking) (db2 : DB),
      findEvent db req.eventId = some event ∧
      addBooking db req newId = (.created b, db2) ∧
      req.totalPrice ≠ event.price * (req.quantity : Rat) ∧
      b.totalPrice = req.totalPrice) := by
  constructor
  · intro db req newId b db2 h
    cases hchk : addBookingCheck db req with
    | some r =>
      simp only [addBooking, hchk] at h
      have hr : r = .created b := (Prod.mk.injEq _ _ _ _ ▸ h).1
      exact absurd (hr ▸ hchk) (addBookingCheck_not_created db req b)
    | none =>
      simp only [addBooking, hchk] at h
      have hb : mkBooking req newId = b := by
        have := congrArg Prod.fst h
        simpa using this
      rw [← hb]
      rfl
  · refine ⟨dbC9, reqC9, "b1", eventC9, mkBooking reqC9 "b1",
      incAttendees (insertBooking dbC9 (mkBooking reqC9 "b1")) reqC9.eventId reqC9.quantity,
      by decide, rfl, ?_, rfl⟩
    show (1 : Rat) ≠ 50 * ((2 : Int) : Rat)
    norm_num

/-- Witness for C9: the stored booking built from `reqC9` carries the
client's total of 1, not the recomputed 100. -/
theorem addBooking_clientPrice_C9_witness :
    (mkBooking reqC9 "b1").totalPrice = reqC9.totalPrice :=
  addBooking_clientPrice_C9.1 dbC9 reqC9 "b1" (mkBooking reqC9 "b1")
    (incAttendees (insertBooking dbC9 (mkBooking reqC9 "b1")) reqC9.eventId reqC9.quantity)
    rfl

/-! ## C10 — pending bookings and verification -/

/-- A payload embedding a booking's id and its current event id, with an
arbitrary (truthy) ticket id and arbitrary remaining fields. -/
def payloadFor (booking : Booking) (tid : String) (em : Option String)
    (q ts : Option Int) : TicketPayload :=
  { ticketId := some tid
    bookingId := some booking.id
    eventId := some booking.eventId
    email := em
    quantity := q
    timestamp := ts }

def bookingC10 : Booking :=
  { id := "b7", name := "Parisa", email := "p@x.com", eventId := "e1",
    eventTitle := "Launch Night", quantity := 1, totalPrice := 50,
    status := .pending, paymentIntentId := some "pi_7" }

def dbC10 : DB := { events := [eventC5], bookings := [bookingC10] }

/-- C10 fails on the code (code bug): the pending booking `b7`'s payload
with its correct current event id `e1` does not verify valid — it is
rejected with Mismatch, because the populated `booking.eventId.toString()`
is the document's inspect rendering and never the hex id.  The status half
of the claim is accurate: the status test rejects only `cancelled`, so the
pending booking passes it exactly like a confirmed one — the rejection is
not Revoked but the event-id comparison, which fails for every id-bearing
payload, pending or confirmed. -/
theorem verifyTicket_pending_mismatch_C10 :
    bookingC10.status = .pending ∧
    (payloadFor bookingC10 "TKT-9" (some "p@x.com") (some 1) (some 5)).eventId =
      some bookingC10.eventId ∧
    verifyTicket (.payload (payloadFor bookingC10 "TKT-9" (some "p@x.com") (some 1) (some 5)))
      (findBookingPopulated dbC10) = .mismatch ∧
    verifyTicket (.payload (payloadFor bookingC10 "TKT-9" (some "p@x.com") (some 1) (some 5)))
      (findBookingPopulated dbC10) ≠ .revoked ∧
    (∀ pb p, VerifyResult.mismatch ≠ .verified pb p) := by
  refine ⟨by decide, rfl, by decide, by decide, fun pb p h => VerifyResult.noConfusion h⟩
